import Mathlib

/-!
Shallow embedding of the CodeReviewAgent asynchronous review worker
(`src/worker/main.py`, `src/worker/bedrock_service.py`,
`src/worker/linter_service.py`, `src/worker/gitlab_service.py`,
`src/worker/jira_service.py`) together with proofs about its
message-processing pipeline.

External collaborators (GitLab, Jira, AWS Bedrock, linter subprocesses,
SQS) are modelled as oracles: each possible outcome of an external call is
a value of an explicit datatype, and the worker functions are translated
from the Python source as total functions over those outcomes.

Python string operations are modelled on the character list of a string
(`String.data`); Python `str` indexing and slicing are character-based, so
this matches the source semantics and keeps every definition computable by
the kernel.
-/

set_option maxRecDepth 8192

namespace CodeReviewAgent

/-- Python truthiness of an optional integer (`body.get(k)` followed by
`if not x`): absent and `0` are falsy. -/
def pyTruthyOptInt : Option Int → Bool
  | none => false
  | some n => n != 0

/-- Python truthiness of an optional string: absent and `""` are falsy. -/
def pyTruthyOptStr : Option String → Bool
  | none => false
  | some s => !s.data.isEmpty

/-- Python `str.startswith`. -/
def pyStartsWith (s pre : String) : Bool := pre.data.isPrefixOf s.data

/-- Python slicing `s[n:]` (character based). -/
def pyDrop (s : String) (n : Nat) : String := String.mk (s.data.drop n)

/-- Python `str.split(sep)` for a one-character separator. -/
def pySplitChar (s : String) (sep : Char) : List String :=
  (s.data.splitOn sep).map String.mk

/-- Python `sep.join(xs)`. -/
def pyJoin (sep : String) : List String → String
  | [] => ""
  | [x] => x
  | x :: y :: rest => x ++ sep ++ pyJoin sep (y :: rest)

/-- Python `len(s.encode("utf-8"))`: the UTF-8 byte length of a string. -/
def pyUtf8Len (s : String) : Nat := s.data.foldl (fun n c => n + c.utf8Size) 0

/-- Python `str(x)` for an optional string value (`None` prints as `"None"`). -/
def pyShowOptStr : Option String → String
  | none => "None"
  | some s => s

/-- Python `str(x)` for an optional integer value. -/
def pyShowOptInt : Option Int → String
  | none => "None"
  | some n => toString n

/-- Python dict assignment `d[k] = v` on an insertion-ordered association
list: replaces the value in place if the key exists, else appends. -/
def dictInsert {α : Type} : List (String × α) → String → α → List (String × α)
  | [], k, v => [(k, v)]
  | (k₀, v₀) :: rest, k, v =>
      if k₀ = k then (k, v) :: rest else (k₀, v₀) :: dictInsert rest k v

/-- Python dict lookup `d.get(k)` on an insertion-ordered association list. -/
def dictGet {α : Type} : List (String × α) → String → Option α
  | [], _ => none
  | (k₀, v₀) :: rest, k => if k₀ = k then some v₀ else dictGet rest k

/-! ### Diff parser (`LinterService._parse_diff`) -/

/-- Loop state of `_parse_diff`: the output dict `files`, the active file
`current_file` and the accumulated added lines `current_content`. -/
structure ParseSt where
  files : List (String × String)
  cur : Option String
  acc : List String

/-- First half of one `_parse_diff` loop iteration: recognize a `+++ b/`
header (sets the active file, resets the accumulator) or an added line
(appended stripped of its `+` marker, when a file is active). -/
def parseDiffAbsorb (s : ParseSt) (line : String) : ParseSt :=
  if pyStartsWith line "--- a/" || pyStartsWith line "+++ b/" then
    if pyStartsWith line "+++ b/" then { s with cur := some (pyDrop line 6), acc := [] }
    else s
  else if pyTruthyOptStr s.cur && pyStartsWith line "+" && !(pyStartsWith line "+++") then
    { s with acc := s.acc ++ [pyDrop line 1] }
  else s

/-- Second half of one `_parse_diff` loop iteration: on a `diff ` header or
a blank line with a file active, flush the accumulator into the output
(only when it is non-empty) and clear the active file. -/
def parseDiffFlush (s : ParseSt) (line : String) : ParseSt :=
  if pyTruthyOptStr s.cur && (pyStartsWith line "diff " || line == "") then
    { files :=
        if s.acc.isEmpty then s.files
        else dictInsert s.files (s.cur.getD "") (pyJoin "\n" s.acc)
      cur := none, acc := [] }
  else s

/-- One full iteration of the `_parse_diff` loop body. -/
def parseDiffStep (s : ParseSt) (line : String) : ParseSt :=
  parseDiffFlush (parseDiffAbsorb s line) line

/-- The trailing flush of `_parse_diff`: if input ended with a file still
active and a non-empty accumulator, flush it. -/
def parseDiffFinish (s : ParseSt) : List (String × String) :=
  if pyTruthyOptStr s.cur && !s.acc.isEmpty then
    dictInsert s.files (s.cur.getD "") (pyJoin "\n" s.acc)
  else s.files

/-- `LinterService._parse_diff`: split on newlines, run the loop, flush. -/
def parseDiff (diff : String) : List (String × String) :=
  parseDiffFinish ((pySplitChar diff '\n').foldl parseDiffStep ⟨[], none, []⟩)

/-! ### Language classifier (`LinterService._group_files_by_language`) -/

/-- Model of `os.path.splitext(path)[1]`: the extension starts at the last
dot of the final path component, except when every character of the
component before that dot is itself a dot (so `.py` as a whole file name
has no extension). -/
def splitextExt (path : String) : String :=
  let base := ((pySplitChar path '/').getLastD "").data
  match ((List.range base.length).filter fun i => base.get? i = some '.').getLast? with
  | none => ""
  | some d =>
      if (List.range d).any (fun i => base.get? i ≠ some '.') then String.mk (base.drop d)
      else ""

/-- `LinterService.supported_languages`: static extension → language table. -/
def supportedLanguages : List (String × String) :=
  [(".py", "python"), (".js", "javascript"), (".jsx", "javascript"),
   (".ts", "typescript"), (".tsx", "typescript"), (".java", "java"),
   (".cs", "csharp"), (".go", "go")]

/-- `LinterService._group_files_by_language`: bucket files by the language
of their extension, dropping unrecognized extensions; buckets appear in
first-encounter order, files in insertion order. -/
def groupFilesByLanguage (files : List (String × String)) :
    List (String × List (String × String)) :=
  files.foldl
    (fun acc f =>
      match dictGet supportedLanguages (splitextExt f.1) with
      | none => acc
      | some lang => dictInsert acc lang (dictInsert ((dictGet acc lang).getD []) f.1 f.2))
    []

/-! ### Lint findings and per-language linter runs -/

/-- One normalized lint finding, as the dict appended to `results["issues"]`.
`line`, `column` and `message` come from tool JSON and may be null. -/
structure Finding where
  file : String
  line : Option Int
  column : Option Int
  message : Option String
  severity : String
  source : String
deriving DecidableEq

/-- The per-language result dict `{"language": ..., "issues": [...]}`. -/
structure LintLang where
  language : String
  issues : List Finding
deriving DecidableEq

/-- Outcome of one external tool invocation on one file: `raised` covers a
non-zero exit status (`CalledProcessError`) or malformed output (both
caught per file and contributing no findings); `output` is the parsed JSON
stdout, with empty stdout modelled as `output []`. -/
inductive ToolRun (α : Type) where
  | raised
  | output (a : α)

/-- One entry of flake8 JSON output. -/
structure Flake8Result where
  line_number : Option Int
  column_number : Option Int
  text : Option String

/-- One entry of pylint JSON output; `msgType` models its `type` key. -/
structure PylintResult where
  msgType : Option String
  line : Option Int
  column : Option Int
  message : Option String

/-- One message of one ESLint per-file result. -/
structure EslintMessage where
  line : Option Int
  column : Option Int
  message : Option String
  severity : Option Int

/-- One per-file result object of ESLint JSON output. -/
structure EslintFileResult where
  messages : List EslintMessage

/-- Severity normalization of the numeric-severity linter (ESLint), as in
`_run_javascript_linters`: `severity = "info"; if 2: error; elif 1: warning`. -/
def eslintSeverityOf (raw : Option Int) : String :=
  if raw == some 2 then "error"
  else if raw == some 1 then "warning"
  else "info"

/-- Severity normalization of the categorical linter (pylint), as in
`_run_python_linters`: `type in ["error", "fatal"]` → error,
`type in ["warning"]` → warning, anything else → info. -/
def pylintSeverityOf (raw : Option String) : String :=
  if raw == some "error" || raw == some "fatal" then "error"
  else if raw == some "warning" then "warning"
  else "info"

/-- The finding dict appended for one ESLint message of file `fp`. -/
def eslintFindingOf (fp : String) (m : EslintMessage) : Finding :=
  { file := fp, line := m.line, column := m.column, message := m.message,
    severity := eslintSeverityOf m.severity, source := "eslint" }

/-- The finding dict appended for one flake8 result of file `fp`. -/
def flake8FindingOf (fp : String) (r : Flake8Result) : Finding :=
  { file := fp, line := r.line_number, column := r.column_number,
    message := r.text, severity := "warning", source := "flake8" }

/-- The finding dict appended for one pylint result of file `fp`. -/
def pylintFindingOf (fp : String) (r : PylintResult) : Finding :=
  { file := fp, line := r.line, column := r.column,
    message := r.message, severity := pylintSeverityOf r.msgType, source := "pylint" }

/-- One `for file_path in files.keys()` tool loop: run the tool on each
file in order and append one finding per result entry; a raised or
malformed run contributes no findings for that file. -/
def toolPass {γ : Type} (oracle : String → ToolRun (List γ))
    (build : String → γ → Finding) (files : List (String × String))
    (init : List Finding) : List Finding :=
  files.foldl
    (fun issues f =>
      match oracle f.1 with
      | .raised => issues
      | .output rs => rs.foldl (fun issues r => issues ++ [build f.1 r]) issues)
    init

/-- `LinterService._run_python_linters`, after the scratch-directory writes
have succeeded: a flake8 pass over all files followed by a pylint pass,
appending findings to `results["issues"]` in discovery order. Tool
behavior is the oracle argument per file. -/
def runPythonLinters (flake8 : String → ToolRun (List Flake8Result))
    (pylint : String → ToolRun (List PylintResult))
    (files : List (String × String)) : LintLang :=
  let issues1 := toolPass flake8 flake8FindingOf files []
  let issues2 := toolPass pylint pylintFindingOf files issues1
  { language := "python", issues := issues2 }

/-- `LinterService._run_javascript_linters`, after the scratch-directory and
ESLint-config writes have succeeded: one ESLint pass over all files,
appending each message of each per-file result in discovery order. -/
def runJavascriptLinters (eslint : String → ToolRun (List EslintFileResult))
    (files : List (String × String)) : LintLang :=
  { language := "javascript"
    issues := files.foldl
      (fun issues f =>
        match eslint f.1 with
        | .raised => issues
        | .output rs => rs.foldl
            (fun issues r =>
              r.messages.foldl (fun issues m => issues ++ [eslintFindingOf f.1 m]) issues)
            issues)
      [] }

/-! ### `LinterService.run_linters` -/

/-- Behavior of the six per-language linter runners as seen from
`run_linters`: each `self._run_<lang>_linters(bucket)` call either returns
a result dict or raises (for the external-tool strategies the scratch
directory writes can fail before any per-file isolation applies). -/
structure LintEnv where
  python : List (String × String) → Except Unit LintLang
  javascript : List (String × String) → Except Unit LintLang
  typescript : List (String × String) → Except Unit LintLang
  java : List (String × String) → Except Unit LintLang
  csharp : List (String × String) → Except Unit LintLang
  go : List (String × String) → Except Unit LintLang

/-- The body of the `try` block of `run_linters`: parse the diff, group by
language and dispatch each bucket to its runner, propagating any raise. -/
def runLintersBody (env : LintEnv) (diff : String) :
    Except Unit (List (String × LintLang)) :=
  let files := parseDiff diff
  let byLang := groupFilesByLanguage files
  byLang.foldlM
    (fun results lb =>
      if lb.1 == "python" then do
        let r ← env.python lb.2
        pure (dictInsert results "python" r)
      else if lb.1 == "javascript" then do
        let r ← env.javascript lb.2
        pure (dictInsert results "javascript" r)
      else if lb.1 == "typescript" then do
        let r ← env.typescript lb.2
        pure (dictInsert results "typescript" r)
      else if lb.1 == "java" then do
        let r ← env.java lb.2
        pure (dictInsert results "java" r)
      else if lb.1 == "csharp" then do
        let r ← env.csharp lb.2
        pure (dictInsert results "csharp" r)
      else if lb.1 == "go" then do
        let r ← env.go lb.2
        pure (dictInsert results "go" r)
      else pure results)
    []

/-- `LinterService.run_linters`: any exception escaping the body is caught
and an empty report dict is returned. -/
def runLinters (env : LintEnv) (diff : String) : List (String × LintLang) :=
  match runLintersBody env diff with
  | .ok r => r
  | .error _ => []

/-! ### Bedrock service (`BedrockService`) -/

/-- Epic sub-dict of a Jira ticket info dict. -/
structure EpicInfo where
  key : String
  summary : String
deriving DecidableEq

/-- The ticket info dict built by `JiraService.get_ticket_info` (the fields
read by `_construct_prompt`; the remaining keys are never consumed by the
worker pipeline). -/
structure JiraInfo where
  key : String
  summary : String
  description : String
  status : String
  issue_type : String
  priority : String
  epic : Option EpicInfo
deriving DecidableEq

/-- The `system_prompt` literal of `BedrockService._construct_prompt`. -/
def systemPrompt : String :=
  "\nYou are an expert code reviewer with deep knowledge of software engineering best practices, design patterns, and security considerations. Your task is to review a code diff and provide constructive feedback.\n\nYour review should focus on:\n1. Potential bugs or logic errors\n2. Security vulnerabilities\n3. Performance issues\n4. Code style and readability\n5. Design and architecture concerns\n6. Maintainability and testability\n7. Suggestions for improvement\n\nFormat your response as a Markdown document with the following sections:\n- **Summary**: A brief overview of the changes and your overall assessment\n- **Key Findings**: The most important issues that need to be addressed\n- **Detailed Review**: A file-by-file breakdown of specific issues and suggestions\n- **Recommendations**: Concrete steps to improve the code\n\nBe specific in your feedback, referencing line numbers and code snippets where appropriate. Provide explanations for why certain patterns or practices are problematic and suggest alternatives.\n\nYour tone should be professional, constructive, and helpful. Focus on the code, not the developer. Highlight both positive aspects and areas for improvement.\n"

/-- The Jira (and optional epic) block appended to the human prompt. -/
def jiraSection (info : JiraInfo) : String :=
  "\n## Jira Ticket Information\n- **Key**: " ++ info.key ++
  "\n- **Summary**: " ++ info.summary ++
  "\n- **Description**: " ++ info.description ++
  "\n- **Status**: " ++ info.status ++
  "\n- **Type**: " ++ info.issue_type ++
  "\n- **Priority**: " ++ info.priority ++ "\n\n" ++
  (match info.epic with
   | some epic =>
      "\n## Epic Information\n- **Key**: " ++ epic.key ++
      "\n- **Summary**: " ++ epic.summary ++ "\n\n"
   | none => "")

/-- One finding line of the linter block of the human prompt. -/
def lintFindingLine (issue : Finding) : String :=
  "- **" ++ issue.severity ++ "**: " ++ pyShowOptStr issue.message ++
  " (File: " ++ issue.file ++ ", Line: " ++ pyShowOptInt issue.line ++ ")\n"

/-- One per-language section of the linter block of the human prompt. -/
def lintLangSection (lang : String) (results : LintLang) : String :=
  "### " ++ lang ++ " Linter Results\n\n" ++
  (if results.issues.isEmpty then "No issues found.\n\n"
   else String.join (results.issues.map lintFindingLine)) ++ "\n"

/-- The linter block of the human prompt. -/
def lintReportSection (lint : List (String × LintLang)) : String :=
  "## Linter Results\n\n" ++ String.join (lint.map fun lr => lintLangSection lr.1 lr.2)

/-- The `human_prompt` of `BedrockService._construct_prompt`: diff fenced
block, optional Jira block, optional linter block, fixed tail. -/
def humanPromptOf (diff : String) (jira : Option JiraInfo)
    (lint : List (String × LintLang)) : String :=
  "Please review the following code diff:\n\n```diff\n" ++ diff ++ "\n```\n\n" ++
  (match jira with
   | some info => jiraSection info
   | none => "") ++
  (if lint.isEmpty then "" else lintReportSection lint) ++
  "\nPlease provide a comprehensive code review based on the diff and any additional information provided. Focus on identifying potential issues, suggesting improvements, and providing constructive feedback.\n"

/-- `BedrockService._construct_prompt`: combine human and system sections in
the wire encoding selected by the primary model prefix. -/
def constructPrompt (primaryModelId diff : String) (jira : Option JiraInfo)
    (lint : List (String × LintLang)) : String :=
  if pyStartsWith primaryModelId "anthropic.claude" then
    "<human>\n" ++ humanPromptOf diff jira lint ++ "\n</human>\n\n<system>\n" ++
      systemPrompt ++ "\n</system>"
  else
    "System: " ++ systemPrompt ++ "\n\nHuman: " ++ humanPromptOf diff jira lint ++
      "\n\nAssistant:"

/-- One generation object of a Titan response body. -/
structure TitanGeneration where
  outputText : Option String

/-- The decoded JSON response body of `invoke_model` (the two keys the
source reads; a key maps to `none` when absent or null). -/
structure ResponseBody where
  completion : Option String
  results : Option (List TitanGeneration)

/-- Outcome of the network call `self.client.invoke_model(...)`:
`clientError` is a service error reported as the `botocore` `ClientError`
the source names and catches; `raised` is a `botocore` exception that is
not a `ClientError` — a transport error such as `EndpointConnectionError`
or a timeout, which subclass `BotoCoreError` and which
`except ClientError` does not catch; `ok` carries the parsed response
body. -/
inductive NetResult where
  | clientError
  | raised
  | ok (body : ResponseBody)

/-- Python exceptions that can escape `_invoke_model`: `connectionError`
is a non-`ClientError` botocore exception propagating from the network
call; while decoding a Titan response, subscripting a null `results`
raises `typeError` and indexing an empty list raises `indexError`. -/
inductive PyExn where
  | connectionError
  | typeError
  | indexError
deriving DecidableEq

/-- Result of `BedrockService._invoke_model`: request schema selected by
model-id prefix (unknown prefix → `None` with no network call), a
`ClientError` caught and turned into `None`, any other exception from the
network call propagated, response decoded per family. -/
def invokeModelRes (net : String → String → NetResult) (modelId prompt : String) :
    Except PyExn (Option String) :=
  if pyStartsWith modelId "anthropic.claude" then
    match net modelId prompt with
    | .clientError => .ok none
    | .raised => .error .connectionError
    | .ok body => .ok body.completion
  else if pyStartsWith modelId "amazon.titan" then
    match net modelId prompt with
    | .clientError => .ok none
    | .raised => .error .connectionError
    | .ok body =>
        match body.results with
        | none => .error .typeError
        | some [] => .error .indexError
        | some (g :: _) => .ok g.outputText
  else
    .ok none

/-- `_invoke_model` together with the record of this invocation (the pair
of model id and prompt it was called with). -/
def invokeModel (net : String → String → NetResult) (modelId prompt : String) :
    Except PyExn (Option String) × List (String × String) :=
  (invokeModelRes net modelId prompt, [(modelId, prompt)])

/-- `BedrockService.generate_review`: render one prompt, invoke the primary
model, on an empty result invoke the fallback with the same prompt, return
`None` if both are empty; any exception is caught by the surrounding
`except Exception` and yields `None`. The second component records the
`_invoke_model` invocations actually performed, in order. -/
def generateReview (net : String → String → NetResult)
    (primary fallback diff : String) (jira : Option JiraInfo)
    (lint : List (String × LintLang)) : Option String × List (String × String) :=
  let prompt := constructPrompt primary diff jira lint
  let i1 := invokeModel net primary prompt
  match i1.1 with
  | .error _ => (none, i1.2)
  | .ok resp1 =>
      if pyTruthyOptStr resp1 then (resp1, i1.2)
      else
        let i2 := invokeModel net fallback prompt
        match i2.1 with
        | .error _ => (none, i1.2 ++ i2.2)
        | .ok resp2 =>
            if pyTruthyOptStr resp2 then (resp2, i1.2 ++ i2.2)
            else (none, i1.2 ++ i2.2)

/-- The result of `generate_review` as a function of the two
`_invoke_model` outcomes (primary first, fallback second): an exception is
caught and yields absent; a falsy primary text falls through to the
fallback; two falsy texts yield absent. -/
def genResult : Except PyExn (Option String) → Except PyExn (Option String) → Option String
  | .error _, _ => none
  | .ok r1, rf =>
    if pyTruthyOptStr r1 then r1
    else
      match rf with
      | .error _ => none
      | .ok r2 => if pyTruthyOptStr r2 then r2 else none

/-- The `_invoke_model` invocations `generate_review` performs, as a
function of the primary outcome: the fallback is invoked exactly when the
primary raised no exception and returned falsy text. -/
def genCalls (primary fallback prompt : String)
    (r1 : Except PyExn (Option String)) : List (String × String) :=
  match r1 with
  | .error _ => [(primary, prompt)]
  | .ok resp1 =>
    if pyTruthyOptStr resp1 then [(primary, prompt)]
    else [(primary, prompt), (fallback, prompt)]

/-! ### Worker main loop (`worker/main.py`) -/

/-- The decoded queue message body; each field is `none` when the key is
absent from the JSON object (`body.get(...)`). -/
structure MsgBody where
  project_id : Option Int
  merge_request_iid : Option Int
  jira_ticket_key : Option String

/-- A received SQS message: `body = none` models a body on which
`json.loads` raises; `receiptHandle` is `message.get("ReceiptHandle")`. -/
structure QueueMessage where
  body : Option MsgBody
  receiptHandle : Option String

/-- The settings read by `process_message` (`app/config.py` defaults:
primary `anthropic.claude-instant-v1`, fallback `amazon.titan-text-lite-v1`,
`MAX_DIFF_SIZE = 100000`). -/
structure Settings where
  primaryModelId : String
  fallbackModelId : String
  maxDiffSize : Nat

/-- Outcomes of the external calls one `process_message` run can make.
`diffResult`: `GitLabService.get_merge_request_diff` (catches `GitlabError`
internally and returns `None` on failure). `jiraInitOk`: whether the
`JIRA(server=..., basic_auth=...)` client constructor in
`JiraService.__init__` succeeds (it contacts the server, so it can raise).
`jiraFetch`: `JiraService.get_ticket_info` (returns `None` on `JIRAError`).
`lintEnv`: the per-language linter runners. `net`: the Bedrock network.
`postOk`: `GitLabService.post_comment` (catches `GitlabError` internally
and returns `False` on failure). -/
structure Env where
  diffResult : Option String
  jiraInitOk : Bool
  jiraFetch : Option JiraInfo
  lintEnv : LintEnv
  net : String → String → NetResult
  postOk : Bool

/-- Observable steps of one `process_message` run. -/
inductive Effect where
  | fetchDiff
  | jiraClientInit
  | fetchTicket
  | lintRun
  | invokeModelCall (modelId prompt : String)
  | postComment (comment : String)
deriving DecidableEq

/-- The fixed notice posted for an oversized diff. -/
def tooLargeNotice : String :=
  "⚠️ The diff for this merge request is too large for automated review. Please consider breaking it down into smaller changes."

/-- The Jira info passed to `generate_review`: fetched only when the job
carries a truthy ticket key (and the client constructor succeeded). -/
def jiraInfoOf (env : Env) (body : MsgBody) : Option JiraInfo :=
  if pyTruthyOptStr body.jira_ticket_key then env.jiraFetch else none

/-- `process_message` from `worker/main.py`: decode the body, validate the
required fields, fetch the diff, short-circuit an oversized diff to the
notice post, optionally fetch Jira context, run the linters, generate the
review and post it. Returns the success flag together with the effects
performed, in order. Any exception inside the body (modelled: a body on
which `json.loads` raises, or a failing Jira client constructor) is caught
by the outer `except Exception` and yields `False`. The boolean result of
`post_comment` is ignored by the source at both call sites. -/
def processMessage (cfg : Settings) (env : Env) (msg : QueueMessage) :
    Bool × List Effect :=
  match msg.body with
  | none => (false, [])
  | some body =>
    if !(pyTruthyOptInt body.project_id && pyTruthyOptInt body.merge_request_iid) then
      (false, [])
    else
      match env.diffResult with
      | none => (false, [.fetchDiff])
      | some diff =>
        if !(pyTruthyOptStr (some diff)) then (false, [.fetchDiff])
        else if decide (pyUtf8Len diff > cfg.maxDiffSize) then
          (true, [.fetchDiff, .postComment tooLargeNotice])
        else
          let keyed := pyTruthyOptStr body.jira_ticket_key
          if keyed && !env.jiraInitOk then
            (false, [.fetchDiff, .jiraClientInit])
          else
            let jiraInfo := jiraInfoOf env body
            let lintResults := runLinters env.lintEnv diff
            let gr := generateReview env.net cfg.primaryModelId cfg.fallbackModelId
              diff jiraInfo lintResults
            let effs := [Effect.fetchDiff] ++
              (if keyed then [Effect.jiraClientInit, Effect.fetchTicket] else []) ++
              [Effect.lintRun] ++ gr.2.map (fun c => Effect.invokeModelCall c.1 c.2)
            if pyTruthyOptStr gr.1 then
              (true, effs ++ [Effect.postComment (gr.1.getD "")])
            else (false, effs)

/-- The per-message step of `main`: skip messages whose receipt handle is
falsy, otherwise run `process_message` and call `delete_message_from_sqs`
exactly when it returned `True`. The result is whether the message was
deleted. -/
def handleMessage (cfg : Settings) (env : Env) (msg : QueueMessage) : Bool :=
  if !(pyTruthyOptStr msg.receiptHandle) then false
  else (processMessage cfg env msg).1

/-- The success condition `process_message` actually implements, spelled
out: decodable body, truthy required fields, truthy fetched diff, and then
either the oversized-diff short-circuit or (Jira client construction
succeeding whenever a key is present, and generation yielding truthy
text). The outcome of `post_comment` plays no role. -/
def processCond (cfg : Settings) (env : Env) (msg : QueueMessage) : Bool :=
  match msg.body with
  | none => false
  | some body =>
    if !(pyTruthyOptInt body.project_id && pyTruthyOptInt body.merge_request_iid) then false
    else
      match env.diffResult with
      | none => false
      | some diff =>
        if !(pyTruthyOptStr (some diff)) then false
        else if decide (pyUtf8Len diff > cfg.maxDiffSize) then true
        else if pyTruthyOptStr body.jira_ticket_key && !env.jiraInitOk then false
        else
          pyTruthyOptStr (generateReview env.net cfg.primaryModelId cfg.fallbackModelId
            diff (jiraInfoOf env body) (runLinters env.lintEnv diff)).1

/-- The deletion condition the code actually implements: a truthy receipt
handle together with the success condition of `process_message`. -/
def deleteCondition (cfg : Settings) (env : Env) (msg : QueueMessage) : Bool :=
  pyTruthyOptStr msg.receiptHandle && processCond cfg env msg

/-- Modelled from the spec: the invariant side of the claim that a message
is deleted iff every pipeline stage of its job completed without error —
truthy receipt handle, decodable body, required fields present, diff
fetched, and then either (oversized diff and the notice post succeeded) or
(Jira client construction succeeded whenever a key is present, generation
produced text, and the review post succeeded). The diff-too-large
short-circuit counts as success; posting (of the review or of the size
notice) is itself a stage. -/
def specAllStagesOk (cfg : Settings) (env : Env) (msg : QueueMessage) : Bool :=
  pyTruthyOptStr msg.receiptHandle &&
  match msg.body with
  | none => false
  | some body =>
    pyTruthyOptInt body.project_id && pyTruthyOptInt body.merge_request_iid &&
    match env.diffResult with
    | none => false
    | some diff =>
      pyTruthyOptStr (some diff) &&
      (if decide (pyUtf8Len diff > cfg.maxDiffSize) then env.postOk
       else
        (!(pyTruthyOptStr body.jira_ticket_key) || env.jiraInitOk) &&
        pyTruthyOptStr (generateReview env.net cfg.primaryModelId cfg.fallbackModelId
          diff (jiraInfoOf env body) (runLinters env.lintEnv diff)).1 &&
        env.postOk)

/-- A message identical to `msg` except that its Jira ticket key is absent
(used to compare a run whose issue fetch failed with a run that never had
an issue key). -/
def stripJiraKey (msg : QueueMessage) : QueueMessage :=
  { msg with body := msg.body.map fun b => { b with jira_ticket_key := none } }

/-- A body identical to `b` except that any required field equal to `0` is
absent (used to compare a falsy-field run with a missing-field run). -/
def zeroFieldsAbsent (b : MsgBody) : MsgBody :=
  { b with
    project_id := if b.project_id == some 0 then none else b.project_id
    merge_request_iid := if b.merge_request_iid == some 0 then none else b.merge_request_iid }

/-! ### Per-file finding lists (discovery-order views of the lint runs) -/

/-- The findings one file contributes to the ESLint pass, in discovery
order; a raised or malformed tool run contributes none. -/
def eslintFileFindings (eslint : String → ToolRun (List EslintFileResult))
    (f : String × String) : List Finding :=
  match eslint f.1 with
  | .raised => []
  | .output rs => (rs.map fun r => r.messages.map (eslintFindingOf f.1)).flatten

/-- The findings one file contributes to one tool pass. -/
def toolFileFindings {γ : Type} (oracle : String → ToolRun (List γ))
    (build : String → γ → Finding) (f : String × String) : List Finding :=
  match oracle f.1 with
  | .raised => []
  | .output rs => rs.map (build f.1)

/-- The findings one file contributes to the flake8 pass. -/
def flake8FileFindings (flake8 : String → ToolRun (List Flake8Result)) :
    String × String → List Finding :=
  toolFileFindings flake8 flake8FindingOf

/-- The findings one file contributes to the pylint pass. -/
def pylintFileFindings (pylint : String → ToolRun (List PylintResult)) :
    String × String → List Finding :=
  toolFileFindings pylint pylintFindingOf

/-! ### Concrete fixtures for counterexamples and witnesses -/

/-- The model-id and size defaults of `app/config.py`. -/
def cfgDefault : Settings :=
  { primaryModelId := "anthropic.claude-instant-v1"
    fallbackModelId := "amazon.titan-text-lite-v1"
    maxDiffSize := 100000 }

/-- Linter runners that succeed with an empty issue list. -/
def lintEnvOk : LintEnv :=
  { python := fun _ => .ok ⟨"python", []⟩
    javascript := fun _ => .ok ⟨"javascript", []⟩
    typescript := fun _ => .ok ⟨"typescript", []⟩
    java := fun _ => .ok ⟨"java", []⟩
    csharp := fun _ => .ok ⟨"csharp", []⟩
    go := fun _ => .ok ⟨"go", []⟩ }

/-- A Bedrock network whose every call succeeds with a completion text. -/
def netCompletion : String → String → NetResult :=
  fun _ _ => .ok { completion := some "Looks good.", results := none }

/-- A Bedrock network whose every call raises `ClientError`. -/
def netDown : String → String → NetResult :=
  fun _ _ => .clientError

/-- A Bedrock network whose every call raises a non-`ClientError`
botocore transport error (endpoint unreachable). -/
def netUnreachable : String → String → NetResult :=
  fun _ _ => .raised

/-- A message with valid required fields and no Jira key. -/
def msgSimple : QueueMessage :=
  { body := some { project_id := some 1, merge_request_iid := some 2, jira_ticket_key := none }
    receiptHandle := some "rh-1" }

/-- A message with valid required fields and a Jira key. -/
def msgKeyed : QueueMessage :=
  { body := some { project_id := some 1, merge_request_iid := some 2,
                   jira_ticket_key := some "PROJ-7" }
    receiptHandle := some "rh-2" }

/-- Every collaborator succeeds, except that `post_comment` fails (returns
`False` after catching a `GitlabError`). -/
def envPostFail : Env :=
  { diffResult := some "+x", jiraInitOk := true, jiraFetch := none
    lintEnv := lintEnvOk, net := netCompletion, postOk := false }

/-- Every collaborator succeeds, except that the Jira client constructor
raises. -/
def envJiraInitFail : Env :=
  { diffResult := some "+x", jiraInitOk := false, jiraFetch := none
    lintEnv := lintEnvOk, net := netCompletion, postOk := true }

/-- Every collaborator succeeds. -/
def envAllOk : Env :=
  { diffResult := some "+x", jiraInitOk := true, jiraFetch := none
    lintEnv := lintEnvOk, net := netCompletion, postOk := true }

/-- The defaults with a one-byte diff-size ceiling. -/
def cfgTiny : Settings := { cfgDefault with maxDiffSize := 1 }

/-- A message whose body lacks the project identifier. -/
def msgNoPid : QueueMessage :=
  { body := some { project_id := none, merge_request_iid := some 2, jira_ticket_key := none }
    receiptHandle := some "rh-3" }

/-- A message whose body carries `project_id = 0`. -/
def msgZeroPid : QueueMessage :=
  { body := some { project_id := some 0, merge_request_iid := some 2, jira_ticket_key := none }
    receiptHandle := some "rh-4" }

/-- Linter runners that always raise. -/
def lintEnvFail : LintEnv :=
  { python := fun _ => .error (), javascript := fun _ => .error ()
    typescript := fun _ => .error (), java := fun _ => .error ()
    csharp := fun _ => .error (), go := fun _ => .error () }

/-- Every collaborator succeeds, except that the diff fetch fails. -/
def envDiffFail : Env := { envAllOk with diffResult := none }

end CodeReviewAgent

namespace CodeReviewAgent

example : handleMessage cfgDefault envPostFail msgSimple = true := by decide

example : specAllStagesOk cfgDefault envPostFail msgSimple = false := by decide

example : (processMessage cfgDefault envJiraInitFail msgKeyed).1 = false := by decide

example :
    (processMessage cfgDefault { envJiraInitFail with jiraInitOk := true } msgKeyed).1
      = true := by decide

example :
    parseDiff "--- a/t.py\n+++ b/t.py\n@@\n x\n+a\n+b\n\nrest" = [("t.py", "a\nb")] := by
  decide

example :
    parseDiff "+++ b/t.py\n+a\ndiff --git c d\n+++ b/u.py\nnothing" = [("t.py", "a")] := by
  decide

example : splitextExt "dir/a.py" = ".py" := by decide

example : splitextExt "dir/.py" = "" := by decide

example :
    groupFilesByLanguage [("a.py", "x"), ("b.js", "y"), ("c.txt", "z"), ("d.py", "w")] =
      [("python", [("a.py", "x"), ("d.py", "w")]), ("javascript", [("b.js", "y")])] := by
  decide

/-! ### Helper lemmas -/

theorem foldl_step_append {α β : Type} (step : List β → α → List β) (h : α → List β)
    (hs : ∀ acc x, step acc x = acc ++ h x) (l : List α) (init : List β) :
    l.foldl step init = init ++ (l.map h).flatten := by
  induction l generalizing init with
  | nil => simp
  | cons a t ih => simp [hs, ih, List.append_assoc]

theorem startsWith_plus_excl {line : String} (h : pyStartsWith line "+" = true) :
    pyStartsWith line "diff " = false ∧ (line == "") = false := by
  unfold pyStartsWith at h ⊢
  have hplus : "+".data = ['+'] := rfl
  rw [hplus] at h
  cases hd : line.data with
  | nil => rw [hd] at h; simp [List.isPrefixOf] at h
  | cons c t =>
    rw [hd] at h
    simp [List.isPrefixOf] at h
    subst h
    constructor
    · have hdiff : "diff ".data = ['d', 'i', 'f', 'f', ' '] := rfl
      rw [hdiff]
      simp [List.isPrefixOf]
    · have hne : line ≠ "" := by
        intro he
        rw [he] at hd
        simp at hd
      simp [hne]

theorem parseDiffAbsorb_files (s : ParseSt) (line : String) :
    (parseDiffAbsorb s line).files = s.files := by
  unfold parseDiffAbsorb
  split_ifs <;> rfl

theorem parseDiffFlush_files_acc_empty (s : ParseSt) (line : String) (h : s.acc = []) :
    (parseDiffFlush s line).files = s.files := by
  unfold parseDiffFlush
  split_ifs <;> simp_all

theorem parseDiffFlush_no_trigger (s : ParseSt) (line : String)
    (h : (pyStartsWith line "diff " || line == "") = false) :
    parseDiffFlush s line = s := by
  unfold parseDiffFlush
  simp [h]

theorem parseDiffStep_files_acc_empty (s : ParseSt) (line : String) (h : s.acc = []) :
    (parseDiffStep s line).files = s.files := by
  unfold parseDiffStep
  rw [← parseDiffAbsorb_files s line]
  by_cases ha : (parseDiffAbsorb s line).acc = []
  · exact parseDiffFlush_files_acc_empty _ _ ha
  · have hplus : pyStartsWith line "+" = true := by
      by_contra hq
      have hq₀ : pyStartsWith line "+" = false := by
        cases hv : pyStartsWith line "+"
        · rfl
        · exact absurd hv hq
      refine absurd ?_ ha
      unfold parseDiffAbsorb
      split_ifs with c1 c2 c3
      · rfl
      · exact h
      · simp [hq₀] at c3
      · exact h
    obtain ⟨h1, h2⟩ := startsWith_plus_excl hplus
    rw [parseDiffFlush_no_trigger _ _ (by simp [h1, h2])]

theorem parseDiffFinish_acc_empty (s : ParseSt) (h : s.acc = []) :
    parseDiffFinish s = s.files := by
  unfold parseDiffFinish
  simp [h]

theorem parseDiffFinish_flush (s : ParseSt) (p : String) (hc : s.cur = some p)
    (hp : p ≠ "") (ha : s.acc ≠ []) :
    parseDiffFinish s = dictInsert s.files p (pyJoin "\n" s.acc) := by
  unfold parseDiffFinish
  have h1 : pyTruthyOptStr (some p) = true := by
    unfold pyTruthyOptStr
    cases p with
    | mk l =>
      cases l with
      | nil => exact absurd rfl hp
      | cons c t => rfl
  have h2 : s.acc.isEmpty = false := by
    cases hv : s.acc
    · exact absurd hv ha
    · rfl
  simp [hc, h1, h2]

/-! ### C7: diff-parser omission of empty sections and end-of-input flush -/

/-- C7: the diff parser omits every file section that accumulated no added
lines — a loop step whose accumulator is empty never inserts into the
output map (and neither does the trailing flush) — and if the input ends
while a file is still active with a non-empty accumulator, that content is
flushed into the output under the active path; `parseDiff` is the trailing
flush applied to the fold of the loop step over the input lines. -/
theorem c7_parse_diff_omission_and_final_flush (s : ParseSt) (line p : String) :
    (s.acc = [] → (parseDiffStep s line).files = s.files ∧ parseDiffFinish s = s.files) ∧
    (s.cur = some p → p ≠ "" → s.acc ≠ [] →
      parseDiffFinish s = dictInsert s.files p (pyJoin "\n" s.acc)) ∧
    parseDiff line =
      parseDiffFinish ((pySplitChar line '\n').foldl parseDiffStep ⟨[], none, []⟩) := by
  refine ⟨fun h => ⟨parseDiffStep_files_acc_empty s line h, parseDiffFinish_acc_empty s h⟩,
    fun hc hp ha => parseDiffFinish_flush s p hc hp ha, rfl⟩

/-- Witness for C7 at concrete inputs: a step on an empty accumulator
leaves the output map untouched, and the trailing flush of an active file
with accumulated lines emits its joined content. -/
theorem c7_witness :
    (parseDiffStep ⟨[("a.py", "x")], some "t.py", []⟩ "+a").files = [("a.py", "x")] ∧
    parseDiffFinish ⟨[], some "t.py", ["a", "b"]⟩ = [("t.py", "a\nb")] := by
  constructor
  · exact ((c7_parse_diff_omission_and_final_flush ⟨[("a.py", "x")], some "t.py", []⟩
      "+a" "t.py").1 rfl).1
  · have h := (c7_parse_diff_omission_and_final_flush ⟨[], some "t.py", ["a", "b"]⟩
      "" "t.py").2.1 rfl (by decide) (by decide)
    rw [h]
    decide

/-! ### C8: severity normalization tables, discovery order, no dedup -/

theorem foldl_snoc_append {α β : Type} (g : α → β) (l : List α) (init : List β) :
    l.foldl (fun acc x => acc ++ [g x]) init = init ++ l.map g := by
  induction l generalizing init with
  | nil => simp
  | cons a t ih => simp [ih, List.append_assoc]

theorem toolPass_eq {γ : Type} (oracle : String → ToolRun (List γ))
    (build : String → γ → Finding) (files : List (String × String))
    (init : List Finding) :
    toolPass oracle build files init
    = init ++ (files.map (toolFileFindings oracle build)).flatten := by
  unfold toolPass
  refine foldl_step_append _ _ (fun acc f => ?_) files init
  cases he : oracle f.1 with
  | raised => simp [toolFileFindings, he]
  | output rs => simp [toolFileFindings, he, foldl_snoc_append]

theorem jsFold_eq (eslint : String → ToolRun (List EslintFileResult))
    (files : List (String × String)) (init : List Finding) :
    files.foldl
      (fun issues f =>
        match eslint f.1 with
        | .raised => issues
        | .output rs => rs.foldl
            (fun issues r =>
              r.messages.foldl (fun issues m => issues ++ [eslintFindingOf f.1 m]) issues)
            issues)
      init
    = init ++ (files.map (eslintFileFindings eslint)).flatten := by
  refine foldl_step_append _ _ (fun acc f => ?_) files init
  cases he : eslint f.1 with
  | raised => simp [eslintFileFindings, he]
  | output rs =>
    have hmid := foldl_step_append
      (fun issues r =>
        r.messages.foldl (fun issues m => issues ++ [eslintFindingOf f.1 m]) issues)
      (fun r => r.messages.map (eslintFindingOf f.1))
      (fun acc r => foldl_snoc_append _ _ _) rs acc
    simp [eslintFileFindings, he, hmid]

/-- C8: the numeric-severity linter (ESLint) maps raw severity 2 to error,
1 to warning and anything else to info; the categorical linter (pylint)
maps raw type error/fatal to error, warning to warning and anything else
to info; and each per-language run appends its findings in discovery order
(per-file, per-result flattening) with no deduplication. -/
theorem c8_severity_normalization_and_order :
    (eslintSeverityOf (some 2) = "error" ∧ eslintSeverityOf (some 1) = "warning" ∧
      ∀ v : Option Int, v ≠ some 2 → v ≠ some 1 → eslintSeverityOf v = "info") ∧
    (pylintSeverityOf (some "error") = "error" ∧ pylintSeverityOf (some "fatal") = "error" ∧
      pylintSeverityOf (some "warning") = "warning" ∧
      ∀ v : Option String, v ≠ some "error" → v ≠ some "fatal" → v ≠ some "warning" →
        pylintSeverityOf v = "info") ∧
    (∀ (eslint : String → ToolRun (List EslintFileResult)) (files : List (String × String)),
      runJavascriptLinters eslint files =
        ⟨"javascript", (files.map (eslintFileFindings eslint)).flatten⟩) ∧
    (∀ (flake8 : String → ToolRun (List Flake8Result))
        (pylint : String → ToolRun (List PylintResult)) (files : List (String × String)),
      runPythonLinters flake8 pylint files =
        ⟨"python", (files.map (flake8FileFindings flake8)).flatten ++
          (files.map (pylintFileFindings pylint)).flatten⟩) := by
  refine ⟨⟨rfl, rfl, fun v h2 h1 => ?_⟩,
    ⟨rfl, rfl, rfl, fun v he hf hw => ?_⟩, fun eslint files => ?_, fun flake8 pylint files => ?_⟩
  · unfold eslintSeverityOf
    rw [beq_eq_false_iff_ne.mpr h2, beq_eq_false_iff_ne.mpr h1]
    simp
  · unfold pylintSeverityOf
    rw [beq_eq_false_iff_ne.mpr he, beq_eq_false_iff_ne.mpr hf, beq_eq_false_iff_ne.mpr hw]
    simp
  · unfold runJavascriptLinters
    rw [jsFold_eq]
    simp
  · unfold runPythonLinters
    dsimp only
    rw [toolPass_eq flake8 flake8FindingOf, toolPass_eq pylint pylintFindingOf]
    rfl

/-- Witness for C8 at concrete inputs: an out-of-table ESLint severity and
pylint type normalize to info, and a one-file ESLint run yields exactly
its normalized finding. -/
theorem c8_witness :
    eslintSeverityOf (some 5) = "info" ∧ pylintSeverityOf (some "refactor") = "info" ∧
    runJavascriptLinters
      (fun _ => .output [⟨[⟨some 3, some 1, some "no-unused-vars", some 2⟩]⟩])
      [("a.js", "x")] =
      ⟨"javascript", [⟨"a.js", some 3, some 1, some "no-unused-vars", "error", "eslint"⟩]⟩ := by
  refine ⟨c8_severity_normalization_and_order.1.2.2 (some 5) (by decide) (by decide),
    c8_severity_normalization_and_order.2.1.2.2.2 (some "refactor") (by decide) (by decide)
      (by decide), ?_⟩
  rw [c8_severity_normalization_and_order.2.2.1
    (fun _ => .output [⟨[⟨some 3, some 1, some "no-unused-vars", some 2⟩]⟩]) [("a.js", "x")]]
  decide

/-! ### Lemmas about `process_message` and `generate_review` -/

theorem processMessage_fst (cfg : Settings) (env : Env) (msg : QueueMessage) :
    (processMessage cfg env msg).1 = processCond cfg env msg := by
  unfold processMessage processCond
  cases msg.body with
  | none => rfl
  | some body =>
    dsimp only
    cases hA : (pyTruthyOptInt body.project_id && pyTruthyOptInt body.merge_request_iid) with
    | false => rfl
    | true =>
      cases env.diffResult with
      | none => rfl
      | some diff =>
        dsimp only
        cases hT : pyTruthyOptStr (some diff) with
        | false => rfl
        | true =>
          cases hS : decide (pyUtf8Len diff > cfg.maxDiffSize) with
          | true => rfl
          | false =>
            cases hK : (pyTruthyOptStr body.jira_ticket_key && !env.jiraInitOk) with
            | true => rfl
            | false =>
              cases hG : pyTruthyOptStr (generateReview env.net cfg.primaryModelId
                cfg.fallbackModelId diff (jiraInfoOf env body)
                (runLinters env.lintEnv diff)).1 <;> simp [hG]

theorem generateReview_fst_eq (net : String → String → NetResult)
    (primary fallback diff : String) (jira : Option JiraInfo)
    (lint : List (String × LintLang)) :
    (generateReview net primary fallback diff jira lint).1 =
      genResult (invokeModelRes net primary (constructPrompt primary diff jira lint))
        (invokeModelRes net fallback (constructPrompt primary diff jira lint)) := by
  unfold generateReview invokeModel genResult
  dsimp only
  cases invokeModelRes net primary (constructPrompt primary diff jira lint) with
  | error e => rfl
  | ok resp1 =>
    dsimp only
    cases pyTruthyOptStr resp1 with
    | true => rfl
    | false =>
      cases invokeModelRes net fallback (constructPrompt primary diff jira lint) with
      | error e => rfl
      | ok resp2 =>
        dsimp only
        cases pyTruthyOptStr resp2 <;> rfl

theorem generateReview_snd_eq (net : String → String → NetResult)
    (primary fallback diff : String) (jira : Option JiraInfo)
    (lint : List (String × LintLang)) :
    (generateReview net primary fallback diff jira lint).2 =
      genCalls primary fallback (constructPrompt primary diff jira lint)
        (invokeModelRes net primary (constructPrompt primary diff jira lint)) := by
  unfold generateReview invokeModel genCalls
  dsimp only
  cases invokeModelRes net primary (constructPrompt primary diff jira lint) with
  | error e => rfl
  | ok resp1 =>
    dsimp only
    cases pyTruthyOptStr resp1 with
    | true => rfl
    | false =>
      cases invokeModelRes net fallback (constructPrompt primary diff jira lint) with
      | error e => rfl
      | ok resp2 =>
        dsimp only
        cases pyTruthyOptStr resp2 <;> rfl

theorem invokeModelRes_net_const {net : String → String → NetResult}
    (hnet : ∀ mid p q, net mid p = net mid q) (mid p q : String) :
    invokeModelRes net mid p = invokeModelRes net mid q := by
  unfold invokeModelRes
  rw [hnet mid p q]

theorem generateReview_fst_congr {net : String → String → NetResult}
    (hnet : ∀ mid p q, net mid p = net mid q) (primary fallback diff : String)
    (jira jira₂ : Option JiraInfo) (lint lint₂ : List (String × LintLang)) :
    (generateReview net primary fallback diff jira lint).1 =
      (generateReview net primary fallback diff jira₂ lint₂).1 := by
  rw [generateReview_fst_eq, generateReview_fst_eq,
    invokeModelRes_net_const hnet primary (constructPrompt primary diff jira lint)
      (constructPrompt primary diff jira₂ lint₂),
    invokeModelRes_net_const hnet fallback (constructPrompt primary diff jira lint)
      (constructPrompt primary diff jira₂ lint₂)]

theorem jiraInfoOf_none {env : Env} (h : env.jiraFetch = none) (body : MsgBody) :
    jiraInfoOf env body = none := by
  unfold jiraInfoOf
  split_ifs <;> simp [h]

/-! ### C1: deletion versus all-stages-succeeded -/

/-- C1 counterexample: with every collaborator succeeding except
`post_comment` (which returns `False` after catching a `GitlabError`), the
message is deleted even though the posting stage failed, so deletion is
not equivalent to all pipeline stages (posting included) succeeding. -/
theorem c1_counterexample :
    handleMessage cfgDefault envPostFail msgSimple = true ∧
    specAllStagesOk cfgDefault envPostFail msgSimple = false := by
  constructor <;> decide

/-- C1 amended: a message is deleted iff its receipt handle is truthy and
the code success condition holds — body decodes, required fields truthy,
diff fetched truthy, and then either the diff is oversized or (the Jira
client constructor succeeds whenever a key is present and generation
yields truthy text). The outcome of posting the comment (review or size
notice) is ignored by the code and does not affect deletion. -/
theorem c1_amended_delete_iff_code_condition (cfg : Settings) (env : Env)
    (msg : QueueMessage) :
    handleMessage cfg env msg = deleteCondition cfg env msg := by
  unfold handleMessage deleteCondition
  cases hh : pyTruthyOptStr msg.receiptHandle with
  | false => rfl
  | true => simp [processMessage_fst]

/-! ### C4: issue-context failure handling versus diff-fetch failure -/

/-- C4 counterexample: with the diff fetched and within the ceiling, a
failing Jira client constructor (the `JIRA(...)` call in
`JiraService.__init__`, which contacts the server) makes `process_message`
return `False` and the message is not deleted, while the identical run
with a working constructor succeeds — so a failure to obtain the issue
context can alone leave the message unacknowledged. -/
theorem c4_counterexample :
    (processMessage cfgDefault envJiraInitFail msgKeyed).1 = false ∧
    handleMessage cfgDefault envJiraInitFail msgKeyed = false ∧
    (processMessage cfgDefault { envJiraInitFail with jiraInitOk := true } msgKeyed).1
      = true := by
  refine ⟨by decide, by decide, by decide⟩

/-- C4 amended: a failure of the issue lookup itself
(`get_ticket_info` returning absent after catching a `JIRAError`) degrades
gracefully — processing succeeds or fails exactly as if the job had no
issue key; a diff-fetch failure aborts the message (failure returned,
message not deleted); but a failure while constructing the Jira client
raises and aborts the message as well. -/
theorem c4_amended_issue_lookup_graceful_client_init_aborts
    (cfg : Settings) (env : Env) (msg : QueueMessage) (body : MsgBody) (diff : String) :
    (env.jiraInitOk = true → env.jiraFetch = none →
      (processMessage cfg env msg).1 = (processMessage cfg env (stripJiraKey msg)).1) ∧
    (env.diffResult = none →
      (processMessage cfg env msg).1 = false ∧ handleMessage cfg env msg = false) ∧
    (msg.body = some body → pyTruthyOptStr body.jira_ticket_key = true →
      env.jiraInitOk = false → env.diffResult = some diff →
      pyUtf8Len diff ≤ cfg.maxDiffSize →
      (processMessage cfg env msg).1 = false) := by
  refine ⟨fun h1 h2 => ?_, fun hd => ?_, fun hb hkey hinit hd hsize => ?_⟩
  · rw [processMessage_fst, processMessage_fst]
    cases hb : msg.body with
    | none =>
      have hb2 : (stripJiraKey msg).body = none := by simp [stripJiraKey, hb]
      simp only [processCond, hb, hb2]
    | some body =>
      have hb2 : (stripJiraKey msg).body = some { body with jira_ticket_key := none } := by
        simp [stripJiraKey, hb]
      have hj := jiraInfoOf_none h2
      simp only [processCond, hb, hb2, h1, hj]
      simp
  · constructor
    · rw [processMessage_fst]
      unfold processCond
      cases hb : msg.body with
      | none => rfl
      | some body =>
        dsimp only
        cases hA : (pyTruthyOptInt body.project_id && pyTruthyOptInt body.merge_request_iid) with
        | false => rfl
        | true => rw [hd]; rfl
    · unfold handleMessage
      cases hh : pyTruthyOptStr msg.receiptHandle with
      | false => rfl
      | true =>
        rw [processMessage_fst]
        unfold processCond
        cases hb : msg.body with
        | none => rfl
        | some body =>
          dsimp only
          cases hA : (pyTruthyOptInt body.project_id &&
            pyTruthyOptInt body.merge_request_iid) with
          | false => rfl
          | true => rw [hd]; rfl
  · rw [processMessage_fst]
    unfold processCond
    rw [hb]
    dsimp only
    cases hA : (pyTruthyOptInt body.project_id && pyTruthyOptInt body.merge_request_iid) with
    | false => rfl
    | true =>
      rw [hd]
      dsimp only
      cases hT : pyTruthyOptStr (some diff) with
      | false => rfl
      | true =>
        rw [decide_eq_false (Nat.not_lt.mpr hsize), hkey, hinit]
        rfl

/-- Witness for C4 at concrete inputs: with a working constructor and a
failed issue lookup the keyed run behaves like the key-free run, a failed
diff fetch yields failure and no deletion, and a failing client
constructor under an in-budget diff yields failure. -/
theorem c4_witness :
    (processMessage cfgDefault envAllOk msgKeyed).1 =
      (processMessage cfgDefault envAllOk (stripJiraKey msgKeyed)).1 ∧
    ((processMessage cfgDefault envDiffFail msgSimple).1 = false ∧
      handleMessage cfgDefault envDiffFail msgSimple = false) ∧
    (processMessage cfgDefault envJiraInitFail msgKeyed).1 = false := by
  refine ⟨(c4_amended_issue_lookup_graceful_client_init_aborts cfgDefault envAllOk msgKeyed
      ⟨some 1, some 2, some "PROJ-7"⟩ "+x").1 rfl rfl,
    (c4_amended_issue_lookup_graceful_client_init_aborts cfgDefault envDiffFail msgSimple
      ⟨some 1, some 2, none⟩ "+x").2.1 rfl,
    (c4_amended_issue_lookup_graceful_client_init_aborts cfgDefault envJiraInitFail msgKeyed
      ⟨some 1, some 2, some "PROJ-7"⟩ "+x").2.2 rfl (by decide) rfl rfl (by decide)⟩

/-! ### C5: oversized-diff short circuit -/

/-- C5: when the fetched diff exceeds the configured byte ceiling,
`process_message` posts exactly the fixed too-large notice, performs no
lint run and no model invocation, and returns success, so a message with a
truthy receipt handle is deleted. -/
theorem c5_oversized_short_circuit
    (cfg : Settings) (env : Env) (msg : QueueMessage) (body : MsgBody) (diff : String)
    (hb : msg.body = some body)
    (hp : pyTruthyOptInt body.project_id = true)
    (hm : pyTruthyOptInt body.merge_request_iid = true)
    (hd : env.diffResult = some diff)
    (ht : pyTruthyOptStr (some diff) = true)
    (hs : pyUtf8Len diff > cfg.maxDiffSize) :
    processMessage cfg env msg = (true, [.fetchDiff, .postComment tooLargeNotice]) ∧
    (pyTruthyOptStr msg.receiptHandle = true → handleMessage cfg env msg = true) := by
  have hmain : processMessage cfg env msg = (true, [.fetchDiff, .postComment tooLargeNotice]) := by
    unfold processMessage
    rw [hb]
    dsimp only
    rw [hp, hm, hd]
    dsimp only
    rw [ht, decide_eq_true hs]
    rfl
  exact ⟨hmain, fun hh => by unfold handleMessage; rw [hh, hmain]; rfl⟩

/-- Witness for C5 at concrete inputs: a 2-byte diff against a 1-byte
ceiling. -/
theorem c5_witness :
    processMessage cfgTiny envAllOk msgSimple =
      (true, [.fetchDiff, .postComment tooLargeNotice]) ∧
    handleMessage cfgTiny envAllOk msgSimple = true := by
  have h := c5_oversized_short_circuit cfgTiny envAllOk msgSimple
    ⟨some 1, some 2, none⟩ "+x" rfl rfl rfl rfl rfl (by decide)
  exact ⟨h.1, h.2 rfl⟩

/-! ### C6: missing required field -/

/-- C6: a decoded body missing the project identifier or the
change-request identifier makes `process_message` return failure with no
effects performed, and the message is not deleted (it stays on the queue
and, never being deleted, is redelivered after each visibility timeout). -/
theorem c6_missing_required_field
    (cfg : Settings) (env : Env) (msg : QueueMessage) (body : MsgBody)
    (hb : msg.body = some body)
    (h : body.project_id = none ∨ body.merge_request_iid = none) :
    processMessage cfg env msg = (false, []) ∧ handleMessage cfg env msg = false := by
  have hA : (pyTruthyOptInt body.project_id && pyTruthyOptInt body.merge_request_iid)
      = false := by
    cases h with
    | inl h => simp [h, pyTruthyOptInt]
    | inr h => simp [h, pyTruthyOptInt]
  have hmain : processMessage cfg env msg = (false, []) := by
    unfold processMessage
    rw [hb]
    dsimp only
    rw [hA]
    rfl
  refine ⟨hmain, ?_⟩
  unfold handleMessage
  cases hh : pyTruthyOptStr msg.receiptHandle with
  | false => rfl
  | true => simp [hmain]

/-- Witness for C6 at a concrete input: a body without `project_id`. -/
theorem c6_witness :
    processMessage cfgDefault envAllOk msgNoPid = (false, []) ∧
    handleMessage cfgDefault envAllOk msgNoPid = false :=
  c6_missing_required_field cfgDefault envAllOk msgNoPid
    ⟨none, some 2, none⟩ rfl (Or.inl rfl)

/-! ### C9: a present-but-zero required field is treated as malformed -/

/-- C9: a body whose `project_id` or `merge_request_iid` is present but
equal to 0 (falsy) makes `process_message` return failure with no effects,
exactly as when the field is absent. -/
theorem c9_zero_required_field_is_malformed
    (cfg : Settings) (env : Env) (msg : QueueMessage) (body : MsgBody)
    (hb : msg.body = some body)
    (h : body.project_id = some 0 ∨ body.merge_request_iid = some 0) :
    processMessage cfg env msg = (false, []) ∧
    processMessage cfg env { msg with body := some (zeroFieldsAbsent body) }
      = (false, []) := by
  constructor
  · have hA : (pyTruthyOptInt body.project_id && pyTruthyOptInt body.merge_request_iid)
        = false := by
      cases h with
      | inl h => simp [h, pyTruthyOptInt]
      | inr h => simp [h, pyTruthyOptInt]
    unfold processMessage
    rw [hb]
    dsimp only
    rw [hA]
    rfl
  · have hA : (pyTruthyOptInt (zeroFieldsAbsent body).project_id &&
        pyTruthyOptInt (zeroFieldsAbsent body).merge_request_iid) = false := by
      cases h with
      | inl h => simp [zeroFieldsAbsent, h, pyTruthyOptInt]
      | inr h => simp [zeroFieldsAbsent, h, pyTruthyOptInt]
    unfold processMessage
    dsimp only
    rw [hA]
    rfl

/-- Witness for C9 at a concrete input: a body with `project_id = 0`. -/
theorem c9_witness :
    processMessage cfgDefault envAllOk msgZeroPid = (false, []) ∧
    processMessage cfgDefault envAllOk
      { msgZeroPid with
        body := some (zeroFieldsAbsent ⟨some 0, some 2, none⟩) } = (false, []) :=
  c9_zero_required_field_is_malformed cfgDefault envAllOk msgZeroPid
    ⟨some 0, some 2, none⟩ rfl (Or.inl rfl)

/-! ### C2: which model-call errors are caught, and when the fallback runs -/

/-- C2 counterexample: a transport error that is not a `ClientError` (the
network outcome `raised`, e.g. `EndpointConnectionError`) is NOT caught
inside `_invoke_model` — it propagates as an exception rather than
becoming an empty result — and although the primary invocation produced no
text, the fallback model is never invoked: `generate_review`'s outer
handler returns absent after the primary call alone. -/
theorem c2_counterexample :
    invokeModelRes netUnreachable "anthropic.claude-instant-v1" "p"
      = .error .connectionError ∧
    (generateReview netUnreachable "anthropic.claude-instant-v1" "amazon.titan-text-lite-v1"
        "+x" none []).1 = none ∧
    (generateReview netUnreachable "anthropic.claude-instant-v1" "amazon.titan-text-lite-v1"
        "+x" none []).2 =
      [("anthropic.claude-instant-v1",
        constructPrompt "anthropic.claude-instant-v1" "+x" none [])] := by
  have h : invokeModelRes netUnreachable "anthropic.claude-instant-v1"
      (constructPrompt "anthropic.claude-instant-v1" "+x" none [])
      = .error .connectionError := rfl
  refine ⟨rfl, ?_, ?_⟩
  · rw [generateReview_fst_eq, h]
    rfl
  · rw [generateReview_snd_eq, h]
    rfl

/-- C2 amended: a service error reported as `ClientError` is caught inside
`_invoke_model` and treated as an empty result, and whenever the primary
invocation returns falsy text without raising, the fallback model is
invoked with the same rendered prompt; but a botocore exception that is
not a `ClientError` (a transport error) escapes `_invoke_model` as an
exception, and any raising primary invocation is caught only by
`generate_review`'s outer handler, which yields absent without ever
invoking the fallback. -/
theorem c2_amended_client_error_caught_raise_skips_fallback
    (net : String → String → NetResult) (mid p primary fallback diff : String)
    (jira : Option JiraInfo) (lint : List (String × LintLang))
    (r : Option String) (e : PyExn) :
    ((pyStartsWith mid "anthropic.claude" = true ∨ pyStartsWith mid "amazon.titan" = true) →
      net mid p = .clientError →
      invokeModel net mid p = (.ok none, [(mid, p)])) ∧
    ((pyStartsWith mid "anthropic.claude" = true ∨ pyStartsWith mid "amazon.titan" = true) →
      net mid p = .raised →
      invokeModelRes net mid p = .error .connectionError) ∧
    (invokeModelRes net primary (constructPrompt primary diff jira lint) = .ok r →
      pyTruthyOptStr r = false →
      (fallback, constructPrompt primary diff jira lint) ∈
        (generateReview net primary fallback diff jira lint).2) ∧
    (invokeModelRes net primary (constructPrompt primary diff jira lint) = .error e →
      (generateReview net primary fallback diff jira lint).1 = none ∧
      (generateReview net primary fallback diff jira lint).2 =
        [(primary, constructPrompt primary diff jira lint)]) := by
  refine ⟨fun hpre hnet => ?_, fun hpre hnet => ?_, fun hres hfalsy => ?_,
    fun herr => ⟨?_, ?_⟩⟩
  · unfold invokeModel invokeModelRes
    by_cases hc : pyStartsWith mid "anthropic.claude" = true
    · simp [hc, hnet]
    · have ht : pyStartsWith mid "amazon.titan" = true := hpre.resolve_left hc
      simp [hc, ht, hnet]
  · unfold invokeModelRes
    by_cases hc : pyStartsWith mid "anthropic.claude" = true
    · simp [hc, hnet]
    · have ht : pyStartsWith mid "amazon.titan" = true := hpre.resolve_left hc
      simp [hc, ht, hnet]
  · rw [generateReview_snd_eq, hres]
    simp [genCalls, hfalsy]
  · rw [generateReview_fst_eq, herr]
    rfl
  · rw [generateReview_snd_eq, herr]
    rfl

/-- Witness for C2 at concrete inputs: a `ClientError` on the primary
Claude model yields an empty result and the Titan fallback is invoked with
the same prompt; a transport error on a supported Titan id escapes as an
exception, and a raising primary leaves the result absent. -/
theorem c2_witness :
    invokeModel netDown "anthropic.claude-instant-v1" "p"
      = (.ok none, [("anthropic.claude-instant-v1", "p")]) ∧
    invokeModelRes netUnreachable "amazon.titan-text-lite-v1" "q"
      = .error .connectionError ∧
    ("amazon.titan-text-lite-v1", constructPrompt "anthropic.claude-instant-v1" "+x" none [])
      ∈ (generateReview netDown "anthropic.claude-instant-v1" "amazon.titan-text-lite-v1"
          "+x" none []).2 ∧
    (generateReview netUnreachable "anthropic.claude-instant-v1" "amazon.titan-text-lite-v1"
        "+y" none []).1 = none := by
  have h₁ := c2_amended_client_error_caught_raise_skips_fallback netDown
    "anthropic.claude-instant-v1" "p" "anthropic.claude-instant-v1"
    "amazon.titan-text-lite-v1" "+x" none [] none PyExn.connectionError
  have h₂ := c2_amended_client_error_caught_raise_skips_fallback netUnreachable
    "amazon.titan-text-lite-v1" "q" "anthropic.claude-instant-v1"
    "amazon.titan-text-lite-v1" "+y" none [] none PyExn.connectionError
  exact ⟨h₁.1 (Or.inl (by decide)) rfl,
    h₂.2.1 (Or.inr (by decide)) rfl,
    h₁.2.2.1 rfl rfl,
    (h₂.2.2.2 rfl).1⟩

/-! ### C3: one rendered prompt, one fallback invocation, then absent -/

/-- C3: `generate_review` renders exactly one prompt string — every
`_invoke_model` invocation it performs receives that string, and the
invocation list is either just the primary or the primary followed by the
fallback exactly once; if the primary invocation returns falsy text the
fallback is invoked exactly once with the same prompt, and if the fallback
also returns falsy text the result is absent with no further invocation. -/
theorem c3_single_prompt_single_fallback
    (net : String → String → NetResult) (primary fallback diff : String)
    (jira : Option JiraInfo) (lint : List (String × LintLang))
    (prompt : String) (r r₂ : Option String)
    (hp : prompt = constructPrompt primary diff jira lint) :
    ((generateReview net primary fallback diff jira lint).2 = [(primary, prompt)] ∨
      (generateReview net primary fallback diff jira lint).2 =
        [(primary, prompt), (fallback, prompt)]) ∧
    (invokeModelRes net primary prompt = .ok r → pyTruthyOptStr r = false →
      (generateReview net primary fallback diff jira lint).2 =
        [(primary, prompt), (fallback, prompt)] ∧
      (invokeModelRes net fallback prompt = .ok r₂ → pyTruthyOptStr r₂ = false →
        (generateReview net primary fallback diff jira lint).1 = none)) := by
  subst hp
  constructor
  · rw [generateReview_snd_eq]
    cases hr : invokeModelRes net primary (constructPrompt primary diff jira lint) with
    | error e => exact Or.inl rfl
    | ok resp1 =>
      cases hq : pyTruthyOptStr resp1 with
      | true => exact Or.inl (by simp [genCalls, hq])
      | false => exact Or.inr (by simp [genCalls, hq])
  · intro hres hfalsy
    refine ⟨?_, fun h₂ hf₂ => ?_⟩
    · rw [generateReview_snd_eq, hres]
      simp [genCalls, hfalsy]
    · rw [generateReview_fst_eq, hres, h₂]
      simp [genResult, hfalsy, hf₂]

set_option maxHeartbeats 2000000 in
/-- Witness for C3 at concrete inputs: with a network that always raises,
both default models are invoked once each with the single rendered prompt
and the result is absent. -/
theorem c3_witness :
    (generateReview netDown "anthropic.claude-instant-v1" "amazon.titan-text-lite-v1"
        "+x" none []).2 =
      [("anthropic.claude-instant-v1", constructPrompt "anthropic.claude-instant-v1" "+x" none []),
       ("amazon.titan-text-lite-v1", constructPrompt "anthropic.claude-instant-v1" "+x" none [])] ∧
    (generateReview netDown "anthropic.claude-instant-v1" "amazon.titan-text-lite-v1"
        "+x" none []).1 = none := by
  have h := c3_single_prompt_single_fallback netDown "anthropic.claude-instant-v1"
    "amazon.titan-text-lite-v1" "+x" none []
    (constructPrompt "anthropic.claude-instant-v1" "+x" none []) none none rfl
  exact ⟨(h.2 rfl rfl).1, (h.2 rfl rfl).2 rfl rfl⟩

/-! ### C10: lint failures are contained inside `run_linters` -/

/-- C10: `run_linters` is total over every runner behavior; when any
exception escapes a per-language linter run, the surrounding handler turns
the whole report into the empty dict; and `process_message` computes the
same success flag whatever the linter runners do (given a Bedrock network
whose answers do not depend on the prompt text, which isolates the lint
outcome from the model call), so a lint failure alone never aborts a
message. -/
theorem c10_lint_errors_contained :
    (∀ (env : LintEnv) (diff : String) (e : Unit),
      runLintersBody env diff = .error e → runLinters env diff = []) ∧
    (∀ (cfg : Settings) (penv : Env) (env₂ : LintEnv) (msg : QueueMessage),
      (∀ mid p q, penv.net mid p = penv.net mid q) →
      (processMessage cfg { penv with lintEnv := env₂ } msg).1 =
        (processMessage cfg penv msg).1) := by
  constructor
  · intro env diff e h
    unfold runLinters
    rw [h]
  · intro cfg penv env₂ msg hnet
    rw [processMessage_fst, processMessage_fst]
    have hgen : ∀ (d : String) (b : MsgBody),
        pyTruthyOptStr (generateReview penv.net cfg.primaryModelId cfg.fallbackModelId
          d (jiraInfoOf { penv with lintEnv := env₂ } b) (runLinters env₂ d)).1 =
        pyTruthyOptStr (generateReview penv.net cfg.primaryModelId cfg.fallbackModelId
          d (jiraInfoOf penv b) (runLinters penv.lintEnv d)).1 := by
      intro d b
      have hj : jiraInfoOf { penv with lintEnv := env₂ } b = jiraInfoOf penv b := rfl
      rw [hj]
      exact congrArg pyTruthyOptStr
        (generateReview_fst_congr hnet cfg.primaryModelId cfg.fallbackModelId
          d (jiraInfoOf penv b) (jiraInfoOf penv b)
          (runLinters env₂ d) (runLinters penv.lintEnv d))
    simp only [processCond]
    simp only [hgen]

set_option maxHeartbeats 2000000 in
/-- Witness for C10 at concrete inputs: runners that always raise yield
the empty report on a diff with a Python file, and swapping them into an
otherwise successful run leaves the processing outcome unchanged. -/
theorem c10_witness :
    runLinters lintEnvFail "+++ b/a.py\n+x" = [] ∧
    (processMessage cfgDefault { envAllOk with lintEnv := lintEnvFail } msgSimple).1 =
      (processMessage cfgDefault envAllOk msgSimple).1 :=
  ⟨c10_lint_errors_contained.1 lintEnvFail "+++ b/a.py\n+x" () rfl,
   c10_lint_errors_contained.2 cfgDefault envAllOk lintEnvFail msgSimple
     (fun _ _ _ => rfl)⟩

end CodeReviewAgent

